import Mathlib

/-!
Verification development for the Trending Data Dashboard service
(src/main.py): a shallow embedding of the upload, search and combined
endpoints, together with theorems about sorting, filtering, pagination,
deduplication and error handling.

Python strings are modelled as Lean strings, and every Python string
operation used by the program (strip, lower, lstrip, endswith, slicing,
lexicographic comparison, substring test) is re-implemented structurally
over the underlying character list so that all definitions evaluate by
kernel reduction.  External effects (the YouTube HTTP calls and the
MongoDB collection) are modelled by passing the provider's responses and
the stored collection in as explicit arguments.
-/

namespace Dashboard

/-- Python s.lower(): ASCII lowercasing of every character
(str.lower on the ASCII range, which is all the program compares). -/
def pyLower (s : String) : String :=
  String.mk (s.data.map Char.toLower)

/-- Characters removed by Python str.strip(): leading and trailing
whitespace of the underlying character list. -/
def pyStripChars (l : List Char) : List Char :=
  ((l.dropWhile Char.isWhitespace).reverse.dropWhile Char.isWhitespace).reverse

/-- Python s.strip(): remove leading and trailing whitespace. -/
def pyStrip (s : String) : String :=
  String.mk (pyStripChars s.data)

/-- Python s.lstrip(c) for c the hash character: remove every leading hash. -/
def pyLstripHash (s : String) : String :=
  String.mk (s.data.dropWhile (fun c => c = '#'))

/-- Python lexicographic string comparison, a less-or-equal b, character by
character on code points, a proper prefix comparing below. -/
def strLeChars : List Char → List Char → Bool
  | [], _ => true
  | _ :: _, [] => false
  | a :: as, b :: bs => if a = b then strLeChars as bs else decide (a < b)

/-- Python a less-or-equal b on strings (used for the date-window test). -/
def pyStrLe (a b : String) : Bool :=
  strLeChars a.data b.data

/-- Check that the first character list begins the second. -/
def prefChk : List Char → List Char → Bool
  | [], _ => true
  | _ :: _, [] => false
  | a :: as, b :: bs => a = b && prefChk as bs

/-- Check that the first character list occurs contiguously in the second. -/
def subChk (n : List Char) : List Char → Bool
  | [] => n.isEmpty
  | b :: bs => prefChk n (b :: bs) || subChk n bs

/-- Python needle in hay on strings (the in operator; empty needle matches). -/
def pySubstr (needle hay : String) : Bool :=
  subChk needle.data hay.data

/-- Python s.endswith(suf). -/
def pyEndsWith (s suf : String) : Bool :=
  prefChk suf.data.reverse s.data.reverse

/-- Python s[:10], the ten-character slice used on publishedAt. -/
def pyTake10 (s : String) : String :=
  String.mk (s.data.take 10)

theorem strLeChars_total (a : List Char) : ∀ b, strLeChars a b = true ∨ strLeChars b a = true := by
  induction a with
  | nil => intro b; left; rfl
  | cons x as ih =>
    intro b
    cases b with
    | nil => right; rfl
    | cons y bs =>
      by_cases hxy : x = y
      · subst hxy
        simpa [strLeChars] using ih bs
      · rcases lt_or_gt_of_ne hxy with h | h
        · left; simp [strLeChars, hxy, h]
        · right; simp [strLeChars, Ne.symm hxy, h]

theorem strLeChars_trans (a : List Char) :
    ∀ b c, strLeChars a b = true → strLeChars b c = true → strLeChars a c = true := by
  induction a with
  | nil => intro b c _ _; rfl
  | cons x as ih =>
    intro b c hab hbc
    cases b with
    | nil => simp [strLeChars] at hab
    | cons y bs =>
      cases c with
      | nil => simp [strLeChars] at hbc
      | cons z cs =>
        by_cases hxy : x = y
        · subst hxy
          by_cases hyz : x = z
          · subst hyz
            simp only [strLeChars, if_pos rfl] at hab hbc ⊢
            exact ih bs cs hab hbc
          · simp only [strLeChars, if_pos rfl] at hab
            simp only [strLeChars, if_neg hyz] at hbc ⊢
            exact hbc
        · by_cases hyz : y = z
          · subst hyz
            simp only [strLeChars, if_neg hxy] at hab ⊢
            exact hab
          · simp only [strLeChars, if_neg hxy] at hab
            simp only [strLeChars, if_neg hyz] at hbc
            have hlt : x < z := lt_trans (of_decide_eq_true hab) (of_decide_eq_true hbc)
            simp [strLeChars, ne_of_lt hlt, hlt]

/-- HTTPException(status, detail) raised by the handlers. -/
inductive HErr where
  | httpError (status : Nat) (detail : String)
  deriving DecidableEq

/-- Python str(e) of an HTTPException: the status code, a colon and the detail. -/
def HErr.message : HErr → String
  | .httpError status detail => Nat.repr status ++ (": ") ++ detail

/-- A MongoDB document of the manual collection, viewed through the schema
the endpoints read: every field the code accesses, each possibly absent.
A value of none models a missing key, so v.get(k, d) becomes Option.getD. -/
structure ManualRecord where
  title : Option String := none
  channel : Option String := none
  url : Option String := none
  published : Option String := none
  views : Option Int := none
  likes : Option Int := none
  comments : Option Int := none
  platform : Option String := none
  keywords : Option String := none
  id : Option String := none
  deriving DecidableEq

/-- A video entry of the JSON response: the dictionary built by
search_videos for YouTube results and by combined_videos for manual rows.
The keywords key is left absent when a manual row lacks it. -/
structure OutRec where
  video_id : Option String := none
  title : String := ""
  channel : String := ""
  url : String := ""
  published : String := ""
  views : Int := 0
  likes : Int := 0
  comments : Int := 0
  platform : String := ""
  keywords : Option String := none
  deriving DecidableEq

/-- One JSON response of the YouTube search endpoint as consumed by the
identifier-collection loop: the error key produced by yt() on failure,
the videoId of each item, and the optional nextPageToken. -/
structure SearchPage where
  error : Option String := none
  items : List String := []
  nextPageToken : Option String := none

/-- One item of a videos?part=snippet,statistics response: the fields the
enrichment loop reads.  Absent statistics model st.get defaulting. -/
structure VideoInfo where
  id : String := ""
  title : String := ""
  channelTitle : String := ""
  publishedAt : String := ""
  viewCount : Option Int := none
  likeCount : Option Int := none
  commentCount : Option Int := none

/-- One JSON response of the statistics-lookup endpoint for a batch. -/
structure StatsResponse where
  error : Option String := none
  items : List VideoInfo := []

/-- The body returned by search-videos on success. -/
structure SearchResult where
  videos : List OutRec
  total : Nat
  deriving DecidableEq

/-- The JSON body and status returned by combined-videos: status 200 with
no error key on success, or the defensive 500 body of the except branch. -/
structure CombinedResponse where
  status : Nat
  error : Option String
  videos : List OutRec
  total : Nat
  deriving DecidableEq

/-- The identifier-collection loop of search_videos (main.py lines 94 to
121): consume the provider's search responses in order, appending each
page's videoIds until max_results identifiers are collected, a page has no
items, or a page carries no continuation token; a response with an error
key raises (modelled as Except.error).  The argument list is the sequence
of responses the provider returns on the successive requests of the run;
an exhausted list behaves like a page with no items. -/
def collectIds (maxResults : Nat) : List SearchPage → List String → Except String (List String)
  | [], acc => .ok acc
  | p :: rest, acc =>
    if maxResults ≤ acc.length then .ok acc
    else
      match p.error with
      | some e => .error e
      | none =>
        if p.items = [] then .ok acc
        else
          let acc2 := acc ++ p.items.take (maxResults - acc.length)
          if maxResults ≤ acc2.length then .ok acc2
          else
            match p.nextPageToken with
            | none => .ok acc2
            | some _ => collectIds maxResults rest acc2

/-- The fix helper repairs mojibake by re-encoding through latin-1; the
byte-level round trip is identity on the abstract strings of this model
(no claim observes the repaired bytes). -/
def fix (s : String) : String := s

/-- The stats dictionary search_videos appends for one enriched video
(main.py lines 148 to 159). -/
def mkStat (queryLower : String) (v : VideoInfo) : OutRec :=
  { video_id := some v.id
    title := fix v.title
    channel := fix v.channelTitle
    url := ("https://youtu.be/") ++ v.id
    published := pyTake10 v.publishedAt
    views := v.viewCount.getD 0
    likes := v.likeCount.getD 0
    comments := v.commentCount.getD 0
    platform := ("YouTube")
    keywords := some queryLower }

/-- The inner for-loop of the enrichment stage: walk one batch response's
items, skipping any identifier already processed, otherwise recording the
identifier and appending its stats dictionary. -/
def enrichItems (queryLower : String) :
    List VideoInfo → List OutRec × List String → List OutRec × List String
  | [], acc => acc
  | v :: rest, (stats, processed) =>
    if v.id ∈ processed then enrichItems queryLower rest (stats, processed)
    else enrichItems queryLower rest (stats ++ [mkStat queryLower v], processed ++ [v.id])

/-- One iteration of the batch loop: a failed batch is logged and skipped,
a successful one is folded through the item loop. -/
def enrichStep (queryLower : String) (acc : List OutRec × List String)
    (resp : StatsResponse) : List OutRec × List String :=
  match resp.error with
  | some _ => acc
  | none => enrichItems queryLower resp.items acc

/-- The whole enrichment stage (main.py lines 127 to 159) over the
sequence of per-batch responses. -/
def enrichAll (queryLower : String) (resps : List StatsResponse) : List OutRec :=
  (resps.foldl (enrichStep queryLower) ([], [])).1

/-- query.lstrip(hash).strip() performed at the top of search_videos. -/
def cleanQuery (query : String) : String :=
  pyStrip (pyLstripHash query)

/-- Number of enrichment batches for n collected identifiers
(range(0, n, 50) has ceil(n / 50) steps). -/
def numBatches (n : Nat) : Nat :=
  (n + 49) / 50

/-- The search-videos endpoint (main.py lines 88 to 161).  The provider's
behaviour is passed in: pages are the successive search responses and
resps the per-batch statistics responses, of which the run consumes one
per batch of at most fifty identifiers. -/
def searchVideos (query startDate endDate : String) (maxResults : Nat)
    (pages : List SearchPage) (resps : List StatsResponse) : Except HErr SearchResult :=
  let q := cleanQuery query
  if q = "" then .error (.httpError 400 ("Query is required"))
  else
    match collectIds maxResults pages [] with
    | .error e => .error (.httpError 502 (("YouTube search error: ") ++ e))
    | .ok ids =>
      if ids = [] then .ok { videos := [], total := 0 }
      else
        let stats := enrichAll (pyLower q) (resps.take (numBatches ids.length))
        .ok { videos := stats, total := stats.length }

/-- The per-record body of the manual filter loop of combined_videos
(main.py lines 180 to 197): none models continue, some the appended
dictionary after setdefault filling and the published overwrite. -/
def normalizeManual (queryLower startDate endDate : String) (v : ManualRecord) : Option OutRec :=
  let pubDate := pyStrip (v.published.getD (""))
  if pubDate = "" then none
  else if !(pyStrLe startDate pubDate && pyStrLe pubDate endDate) then none
  else
    let keywordsStr := pyLower (v.keywords.getD (""))
    if queryLower ≠ "" && !(pySubstr queryLower keywordsStr) then none
    else
      some { video_id := none
             title := v.title.getD ("Untitled")
             channel := v.channel.getD (v.id.getD ("Unknown"))
             url := v.url.getD ("#")
             published := pubDate
             views := v.views.getD 0
             likes := v.likes.getD 0
             comments := v.comments.getD 0
             platform := v.platform.getD ("Manual")
             keywords := v.keywords }

/-- The filtered_manual list built by combined_videos from the collection. -/
def filteredManual (queryLower startDate endDate : String)
    (store : List ManualRecord) : List OutRec :=
  store.filterMap (normalizeManual queryLower startDate endDate)

/-- Sort relation of combined.sort(key published, reverse true): a before b
exactly when b's published key compares at most a's. -/
def byPublishedDesc (a b : OutRec) : Prop :=
  pyStrLe b.published a.published = true

instance : DecidableRel byPublishedDesc :=
  fun a b => inferInstanceAs (Decidable (_ = true))

instance : IsTotal OutRec byPublishedDesc :=
  ⟨fun a b => strLeChars_total b.published.data a.published.data⟩

instance : IsTrans OutRec byPublishedDesc :=
  ⟨fun _ b _ hab hbc => strLeChars_trans _ b.published.data _ hbc hab⟩

/-- Python list.sort(key published, reverse true): a stable descending
sort.  A stable sort for a total transitive relation is unique, so the
structural insertion sort below computes precisely the list the Python
mergesort produces. -/
def pySortDesc (l : List OutRec) : List OutRec :=
  List.insertionSort byPublishedDesc l

/-- The part of combined_videos that consults search_videos (main.py lines
170 to 173): only performed when source is all or youtube. -/
def ytPortion (query startDate endDate : String) (maxResults : Nat) (source : String)
    (pages : List SearchPage) (resps : List StatsResponse) : Except HErr (List OutRec) :=
  if source = "all" ∨ source = "youtube" then
    (searchVideos query startDate endDate maxResults pages resps).map SearchResult.videos
  else .ok []

/-- The defensive 500 body of the except branch (main.py line 211). -/
def mk500 (msg : String) : CombinedResponse :=
  { status := 500, error := some msg, videos := [], total := 0 }

/-- The combined-videos endpoint (main.py lines 167 to 211).  The store
read is passed as an Except so a failing collection read is representable;
any exception of the try block, including the HTTPExceptions raised by
search_videos, is caught and becomes the 500 body. -/
def combinedVideos (query startDate endDate : String) (maxResults : Nat) (source : String)
    (pages : List SearchPage) (resps : List StatsResponse)
    (manualRead : Except String (List ManualRecord)) : CombinedResponse :=
  match ytPortion query startDate endDate maxResults source pages resps with
  | .error e => mk500 e.message
  | .ok ytVideos =>
    match manualRead with
    | .error msg => mk500 msg
    | .ok manualRaw =>
      let queryLower := pyStrip (pyLower query)
      let fm := filteredManual queryLower startDate endDate manualRaw
      let combined :=
        if source = "youtube" then ytVideos
        else if source = "manual" then fm
        else ytVideos ++ fm
      let sorted := pySortDesc combined
      { status := 200, error := none, videos := sorted, total := sorted.length }

/-- A spreadsheet cell as pandas hands it to the importer: a string, a
number, a native date or timestamp (carried as its rendering), or a
missing value (NaN). -/
inductive Cell where
  | sv (s : String)
  | iv (n : Int)
  | tv (s : String)
  | na
  deriving DecidableEq

/-- df.fillna: only missing cells change, becoming the empty string. -/
def fillCell : Cell → Cell
  | .na => .sv ""
  | c => c

/-- The parsed spreadsheet: pandas DataFrame of read_excel. -/
structure Sheet where
  columns : List String
  rows : List (List Cell)
  deriving DecidableEq

/-- A stored document of the manual collection as the importer writes it. -/
abbrev MongoDoc := List (String × Cell)

/-- df.columns.str.strip().str.lower(). -/
def normColumns (cols : List String) : List String :=
  cols.map (fun c => pyLower (pyStrip c))

/-- df.to_dict(orient records) after header normalization and fillna. -/
def toRecords (sheet : Sheet) : List MongoDoc :=
  sheet.rows.map (fun row => (normColumns sheet.columns).zip (row.map fillCell))

/-- The upload response body. -/
structure UploadResp where
  status : String
  count : Nat
  deriving DecidableEq

/-- file.filename.lower().endswith((xlsx, xls)). -/
def allowedExcelName (filename : String) : Bool :=
  pyEndsWith (pyLower filename) (".xlsx") || pyEndsWith (pyLower filename) (".xls")

/-- The upload-excel endpoint (main.py lines 64 to 82): reject a bad
extension, surface a parse failure as a 500 without touching the store,
and otherwise delete every existing document and insert the new records.
The parsed argument is the outcome of read_excel on the uploaded bytes
(the same bytes always parse the same way); the returned pair is the
store after the request together with the HTTP outcome. -/
def uploadExcel (filename : String) (parsed : Except String Sheet)
    (store : List MongoDoc) : List MongoDoc × Except HErr UploadResp :=
  if allowedExcelName filename = false then
    (store, .error (.httpError 400 ("Only Excel files are allowed")))
  else
    match parsed with
    | .error e => (store, .error (.httpError 500 (("Error processing Excel: ") ++ e)))
    | .ok sheet =>
      let records := toRecords sheet
      (records, .ok { status := "ok", count := records.length })

/-- C1: every combined-videos response carries a videos list sorted by the
published field in non-increasing (newest-first) order, and a total equal
to that list's length; this also covers the defensive 500 body, whose list
is empty. -/
theorem c1_sorted_and_total (query startDate endDate : String) (maxResults : Nat)
    (source : String) (pages : List SearchPage) (resps : List StatsResponse)
    (manualRead : Except String (List ManualRecord)) :
    List.Sorted byPublishedDesc
      (combinedVideos query startDate endDate maxResults source pages resps manualRead).videos
      ∧ (combinedVideos query startDate endDate maxResults source pages resps manualRead).total
        = (combinedVideos query startDate endDate maxResults source pages resps
            manualRead).videos.length := by
  unfold combinedVideos
  cases ytPortion query startDate endDate maxResults source pages resps with
  | error e => exact ⟨List.sorted_nil, rfl⟩
  | ok ys =>
    cases manualRead with
    | error msg => exact ⟨List.sorted_nil, rfl⟩
    | ok store => exact ⟨List.sorted_insertionSort byPublishedDesc _, rfl⟩

/-- The identifier-collection loop never grows its accumulator past
max_results: each page contributes at most the missing count. -/
theorem collectIds_le (maxResults : Nat) (pages : List SearchPage) :
    ∀ acc ids, acc.length ≤ maxResults → collectIds maxResults pages acc = .ok ids →
      ids.length ≤ maxResults := by
  induction pages with
  | nil =>
    intro acc ids hacc h
    simp only [collectIds, Except.ok.injEq] at h
    exact h ▸ hacc
  | cons p rest ih =>
    intro acc ids hacc h
    rw [collectIds] at h
    by_cases h1 : maxResults ≤ acc.length
    · rw [if_pos h1] at h
      simp only [Except.ok.injEq] at h
      exact h ▸ hacc
    · rw [if_neg h1] at h
      cases herr : p.error with
      | some e => simp [herr] at h
      | none =>
        simp only [herr] at h
        by_cases h2 : p.items = []
        · rw [if_pos h2] at h
          simp only [Except.ok.injEq] at h
          exact h ▸ hacc
        · rw [if_neg h2] at h
          have hlen : (acc ++ p.items.take (maxResults - acc.length)).length ≤ maxResults := by
            simp only [List.length_append, List.length_take]
            omega
          by_cases h3 : maxResults ≤ (acc ++ p.items.take (maxResults - acc.length)).length
          · rw [if_pos h3] at h
            simp only [Except.ok.injEq] at h
            exact h ▸ hlen
          · rw [if_neg h3] at h
            cases htok : p.nextPageToken with
            | none =>
              simp only [htok, Except.ok.injEq] at h
              exact h ▸ hlen
            | some t =>
              simp only [htok] at h
              exact ih _ ids hlen h

/-- C3: whenever the identifier-collection loop of search_videos finishes
normally (the stage that runs before enrichment, for any run and so in
particular for every non-empty cleaned query), it has accumulated at most
max_results video identifiers. -/
theorem c3_collect_bounded (maxResults : Nat) (pages : List SearchPage) (ids : List String)
    (h : collectIds maxResults pages [] = .ok ids) : ids.length ≤ maxResults :=
  collectIds_le maxResults pages [] ids (Nat.zero_le _) h

/-- Witness for C3: a provider page with five identifiers and a
continuation token, requested with max_results three, yields three. -/
theorem c3_collect_bounded_witness : (["a", "b", "c"] : List String).length ≤ 3 :=
  c3_collect_bounded 3 [{ items := ["a", "b", "c", "d", "e"], nextPageToken := some ("t") }]
    (["a", "b", "c"]) rfl

/-- Invariant of the enrichment item loop: the recorded stats carry
exactly the processed identifiers, in order, and those stay distinct. -/
theorem enrichItems_inv (ql : String) (items : List VideoInfo) :
    ∀ stats processed, stats.map OutRec.video_id = processed.map some → processed.Nodup →
      ((enrichItems ql items (stats, processed)).1.map OutRec.video_id
          = ((enrichItems ql items (stats, processed)).2).map some)
        ∧ (enrichItems ql items (stats, processed)).2.Nodup := by
  induction items with
  | nil => intro stats processed h1 h2; exact ⟨h1, h2⟩
  | cons v rest ih =>
    intro stats processed h1 h2
    by_cases hmem : v.id ∈ processed
    · simpa [enrichItems, hmem] using ih stats processed h1 h2
    · have h1a : (stats ++ [mkStat ql v]).map OutRec.video_id
          = (processed ++ [v.id]).map some := by
        simp [h1, mkStat]
      have h2a : (processed ++ [v.id]).Nodup := by
        simp [List.nodup_append, h2, hmem]
      simpa [enrichItems, hmem] using ih _ _ h1a h2a

/-- The invariant extends through the whole batch loop. -/
theorem enrichFold_inv (ql : String) (resps : List StatsResponse) :
    ∀ stats processed, stats.map OutRec.video_id = processed.map some → processed.Nodup →
      ((resps.foldl (enrichStep ql) (stats, processed)).1.map OutRec.video_id
          = ((resps.foldl (enrichStep ql) (stats, processed)).2).map some)
        ∧ (resps.foldl (enrichStep ql) (stats, processed)).2.Nodup := by
  induction resps with
  | nil => intro stats processed h1 h2; exact ⟨h1, h2⟩
  | cons r rest ih =>
    intro stats processed h1 h2
    cases herr : r.error with
    | some e => simpa [List.foldl, enrichStep, herr] using ih stats processed h1 h2
    | none =>
      obtain ⟨ha, hb⟩ := enrichItems_inv ql r.items stats processed h1 h2
      have hrec := ih (enrichItems ql r.items (stats, processed)).1
        (enrichItems ql r.items (stats, processed)).2 ha hb
      simpa [List.foldl, enrichStep, herr] using hrec

/-- The enrichment stage emits pairwise distinct video identifiers. -/
theorem enrichAll_nodup (ql : String) (resps : List StatsResponse) :
    ((enrichAll ql resps).map OutRec.video_id).Nodup := by
  obtain ⟨h1, h2⟩ := enrichFold_inv ql resps [] [] rfl List.nodup_nil
  rw [enrichAll, h1]
  exact h2.map (Option.some_injective _)

/-- C4: for every sequence of enrichment batch responses, the stats list a
successful search_videos run returns never contains two entries with the
same video_id, even when the provider repeats an identifier across
batches. -/
theorem c4_enrichment_nodup (query startDate endDate : String) (maxResults : Nat)
    (pages : List SearchPage) (resps : List StatsResponse) (res : SearchResult)
    (h : searchVideos query startDate endDate maxResults pages resps = .ok res) :
    (res.videos.map OutRec.video_id).Nodup := by
  simp only [searchVideos] at h
  by_cases hq : cleanQuery query = ""
  · simp [hq] at h
  · rw [if_neg hq] at h
    cases hc : collectIds maxResults pages [] with
    | error e => simp [hc] at h
    | ok ids =>
      simp only [hc] at h
      by_cases hids : ids = []
      · rw [if_pos hids] at h
        simp only [Except.ok.injEq] at h
        simp [← h]
      · rw [if_neg hids] at h
        simp only [Except.ok.injEq] at h
        rw [← h]
        exact enrichAll_nodup _ _

/-- Provider item used to exercise the deduplication guard. -/
def dupInfoA : VideoInfo :=
  { id := ("a")
    title := ("T")
    channelTitle := ("C")
    publishedAt := ("2024-01-02T00:00:00Z") }

/-- A second provider item carrying the same identifier a. -/
def dupInfoA2 : VideoInfo :=
  { id := ("a")
    title := ("T2")
    channelTitle := ("C2")
    publishedAt := ("2024-01-03T00:00:00Z") }

/-- Witness for C4: two items repeat identifier a; one entry survives. -/
theorem c4_enrichment_nodup_witness :
    ((SearchResult.mk [mkStat ("pop") dupInfoA] 1).videos.map OutRec.video_id).Nodup :=
  c4_enrichment_nodup ("pop") ("2024-01-01") ("2024-01-31") 50
    [{ items := ["a", "b"] }] [{ items := [dupInfoA, dupInfoA2] }]
    (SearchResult.mk [mkStat ("pop") dupInfoA] 1) rfl

/-- C7: uploading the same spreadsheet twice in a row leaves the manual
collection in exactly the state of the first upload, whatever state it
started from: the handler deletes everything and inserts the parsed rows,
so the second run rebuilds the same documents (and returns the same
count), with no duplication. -/
theorem c7_upload_idempotent (filename : String) (parsed : Except String Sheet)
    (store : List MongoDoc) :
    (uploadExcel filename parsed (uploadExcel filename parsed store).1).1
      = (uploadExcel filename parsed store).1 := by
  unfold uploadExcel
  by_cases hn : allowedExcelName filename = false
  · simp [hn]
  · cases parsed with
    | error e => simp [hn]
    | ok sheet => simp [hn]

/-- C8: search_videos answers with the 400 client error exactly when the
query, after stripping leading hashtag characters and surrounding
whitespace, is empty; a non-empty cleaned query never produces it. -/
theorem c8_query_400_iff (query startDate endDate : String) (maxResults : Nat)
    (pages : List SearchPage) (resps : List StatsResponse) :
    searchVideos query startDate endDate maxResults pages resps
        = .error (.httpError 400 ("Query is required"))
      ↔ cleanQuery query = "" := by
  constructor
  · intro h
    by_contra hq
    simp only [searchVideos] at h
    rw [if_neg hq] at h
    cases hc : collectIds maxResults pages [] with
    | error e => simp [hc] at h
    | ok ids =>
      simp only [hc] at h
      by_cases hids : ids = [] <;> simp [hids] at h
  · intro h
    simp [searchVideos, h]

/-- Witness for C8: a query of one hashtag cleans to empty and is
rejected with the 400 error. -/
theorem c8_query_400_iff_witness :
    searchVideos ("#") ("2024-01-01") ("2024-01-31") 5 [] []
      = .error (.httpError 400 ("Query is required")) :=
  (c8_query_400_iff ("#") ("2024-01-01") ("2024-01-31") 5 [] []).mpr rfl

/-- Everything the filter-loop body guarantees about an emitted record:
its published field is the trimmed stored value, non-empty and inside the
window, its keywords field is the stored one, and a non-empty lowered
query occurs in the lowered keywords. -/
theorem normalizeManual_some_spec (ql startDate endDate : String) (r : ManualRecord)
    (v : OutRec) (h : normalizeManual ql startDate endDate r = some v) :
    v.published = pyStrip (r.published.getD (""))
      ∧ v.published ≠ ""
      ∧ pyStrLe startDate v.published = true
      ∧ pyStrLe v.published endDate = true
      ∧ v.keywords = r.keywords
      ∧ (ql = "" ∨ pySubstr ql (pyLower (v.keywords.getD (""))) = true) := by
  simp only [normalizeManual] at h
  split at h
  next hempty => exact absurd h (by simp)
  next hempty =>
    split at h
    next hrange => exact absurd h (by simp)
    next hrange =>
      split at h
      next hkw => exact absurd h (by simp)
      next hkw =>
        have hv := (Option.some.injEq _ _).mp h
        subst hv
        have hrange2 : pyStrLe startDate (pyStrip (r.published.getD (""))) = true
            ∧ pyStrLe (pyStrip (r.published.getD (""))) endDate = true := by
          simp only [Bool.not_eq_true', Bool.not_eq_false] at hrange
          exact Bool.and_eq_true_iff.mp hrange
        refine ⟨rfl, hempty, hrange2.1, hrange2.2, rfl, ?_⟩
        by_cases hql : ql = ""
        · exact Or.inl hql
        · right
          have hkwb : pySubstr ql (pyLower (r.keywords.getD (""))) = true := by
            by_contra hns
            apply hkw
            simp [hql, Bool.not_eq_true _ ▸ hns]
          simpa using hkwb

/-- Any record of a combined response that did not come from the YouTube
portion is the image of a stored manual record under the filter loop. -/
theorem mem_manual_source (query startDate endDate : String) (maxResults : Nat)
    (source : String) (pages : List SearchPage) (resps : List StatsResponse)
    (store : List ManualRecord) (v : OutRec)
    (hv : v ∈ (combinedVideos query startDate endDate maxResults source pages resps
        (.ok store)).videos)
    (hyt : ∀ ys, ytPortion query startDate endDate maxResults source pages resps = .ok ys →
        v ∉ ys) :
    ∃ r ∈ store, normalizeManual (pyStrip (pyLower query)) startDate endDate r = some v := by
  cases hyp : ytPortion query startDate endDate maxResults source pages resps with
  | error e => simp [combinedVideos, hyp, mk500] at hv
  | ok ys =>
    simp only [combinedVideos, hyp] at hv
    have hnot := hyt ys hyp
    have hv2 := (List.perm_insertionSort byPublishedDesc _).mem_iff.mp hv
    by_cases hs1 : source = "youtube"
    · rw [if_pos hs1] at hv2
      exact absurd hv2 hnot
    · rw [if_neg hs1] at hv2
      by_cases hs2 : source = "manual"
      · rw [if_pos hs2] at hv2
        simpa [filteredManual, List.mem_filterMap] using hv2
      · rw [if_neg hs2] at hv2
        rcases List.mem_append.mp hv2 with hya | hma
        · exact absurd hya hnot
        · simpa [filteredManual, List.mem_filterMap] using hma

/-- Store of one manual record with lowercase keywords music. -/
def c2store : List ManualRecord :=
  [{ published := some ("2024-01-05"), keywords := some ("music") }]

/-- The response entry combined_videos builds from that record. -/
def c2rec : OutRec :=
  { title := ("Untitled")
    channel := ("Unknown")
    url := ("#")
    published := ("2024-01-05")
    platform := ("Manual")
    keywords := some ("music") }

/-- C2 (counterexample): the whitespace query of one blank is non-empty
and, lowercased, is no substring of the lowercased keywords music, yet
the record appears in the combined output, because the code strips the
query before testing it (query.lower().strip() is empty and matches
everything).  This refutes the claim as stated. -/
theorem c2_counterexample :
    ((" " : String) ≠ "")
      ∧ pySubstr (pyLower (" ")) (pyLower ("music")) = false
      ∧ (combinedVideos (" ") ("2024-01-01") ("2024-01-31") 50 ("manual") [] []
          (.ok c2store)).videos = [c2rec] := by
  exact ⟨by decide, by decide, by decide⟩

/-- C2 (amended): a manual record of a combined response (any output
entry not contributed by the YouTube portion) always has its trimmed
published value inside the window, and when the lowercased and
whitespace-stripped query is non-empty it occurs as a substring of the
lowercased keywords field. -/
theorem c2_amended_filter (query startDate endDate : String) (maxResults : Nat)
    (source : String) (pages : List SearchPage) (resps : List StatsResponse)
    (store : List ManualRecord) (v : OutRec)
    (hv : v ∈ (combinedVideos query startDate endDate maxResults source pages resps
        (.ok store)).videos)
    (hyt : ∀ ys, ytPortion query startDate endDate maxResults source pages resps = .ok ys →
        v ∉ ys) :
    pyStrLe startDate v.published = true ∧ pyStrLe v.published endDate = true
      ∧ (pyStrip (pyLower query) = ""
          ∨ pySubstr (pyStrip (pyLower query)) (pyLower (v.keywords.getD (""))) = true) := by
  obtain ⟨r, hr, hnorm⟩ := mem_manual_source query startDate endDate maxResults source
    pages resps store v hv hyt
  obtain ⟨_, _, h3, h4, _, h6⟩ := normalizeManual_some_spec _ _ _ _ _ hnorm
  exact ⟨h3, h4, h6⟩

/-- Store of one manual record whose keywords mix case. -/
def c2wstore : List ManualRecord :=
  [{ published := some ("2024-01-05"), keywords := some ("Music POP") }]

/-- The response entry built from that record. -/
def c2wrec : OutRec :=
  { title := ("Untitled")
    channel := ("Unknown")
    url := ("#")
    published := ("2024-01-05")
    platform := ("Manual")
    keywords := some ("Music POP") }

/-- Witness for the amended C2 at the query pop against mixed-case
keywords. -/
theorem c2_amended_filter_witness :
    pyStrLe ("2024-01-01") c2wrec.published = true
      ∧ pyStrLe c2wrec.published ("2024-01-31") = true
      ∧ (pyStrip (pyLower ("pop")) = ""
          ∨ pySubstr (pyStrip (pyLower ("pop"))) (pyLower (c2wrec.keywords.getD (""))) = true) :=
  c2_amended_filter ("pop") ("2024-01-01") ("2024-01-31") 5 ("manual") [] [] c2wstore c2wrec
    (by decide)
    (fun ys hy => by
      have h2 : Except.ok ([] : List OutRec) = Except.ok ys := hy
      injection h2 with h2
      exact h2 ▸ (List.not_mem_nil _))

/-- Store of one manual record with a one-character published value. -/
def c5store : List ManualRecord := [{ published := some ("5") }]

/-- The response entry combined_videos builds from it. -/
def c5rec : OutRec :=
  { title := ("Untitled")
    channel := ("Unknown")
    url := ("#")
    published := ("5")
    platform := ("Manual") }

/-- C5 (counterexample): with window 0 to 9 the stored one-character
published value 5 passes the lexicographic filter and reaches the output
unchanged: not ten characters long and not the sentinel 0000-00-00.
combined_videos performs no length normalization and no sentinel
defaulting on manual records (the sentinel exists only as the sort-key
default for a missing field). -/
theorem c5_counterexample :
    (combinedVideos ("") ("0") ("9") 50 ("manual") [] [] (.ok c5store)).videos = [c5rec]
      ∧ c5rec.published.length ≠ 10
      ∧ c5rec.published ≠ ("0000-00-00") := by
  exact ⟨by decide, by decide, by decide⟩

/-- C5 (amended): a manual record of a combined response carries as its
published field exactly the whitespace-trimmed stringified stored value,
always non-empty (records with empty or missing dates are excluded rather
than defaulted); no ten-character shape is enforced. -/
theorem c5_amended_published (query startDate endDate : String) (maxResults : Nat)
    (source : String) (pages : List SearchPage) (resps : List StatsResponse)
    (store : List ManualRecord) (v : OutRec)
    (hv : v ∈ (combinedVideos query startDate endDate maxResults source pages resps
        (.ok store)).videos)
    (hyt : ∀ ys, ytPortion query startDate endDate maxResults source pages resps = .ok ys →
        v ∉ ys) :
    v.published ≠ "" ∧ ∃ r ∈ store, v.published = pyStrip (r.published.getD ("")) := by
  obtain ⟨r, hr, hnorm⟩ := mem_manual_source query startDate endDate maxResults source
    pages resps store v hv hyt
  obtain ⟨h1, h2, _, _, _, _⟩ := normalizeManual_some_spec _ _ _ _ _ hnorm
  exact ⟨h2, r, hr, h1⟩

/-- Store of one record whose published value carries stray blanks. -/
def c5wstore : List ManualRecord := [{ published := some (" 2024-01-05 ") }]

/-- The response entry built from it: the blanks are trimmed away. -/
def c5wrec : OutRec :=
  { title := ("Untitled")
    channel := ("Unknown")
    url := ("#")
    published := ("2024-01-05")
    platform := ("Manual") }

/-- Witness for the amended C5: the output published value is the
trimmed stored one. -/
theorem c5_amended_published_witness :
    c5wrec.published ≠ ""
      ∧ ∃ r ∈ c5wstore, c5wrec.published = pyStrip (r.published.getD ("")) :=
  c5_amended_published ("") ("2024-01-01") ("2024-01-31") 5 ("manual") [] [] c5wstore c5wrec
    (by decide)
    (fun ys hy => by
      have h2 : Except.ok ([] : List OutRec) = Except.ok ys := hy
      injection h2 with h2
      exact h2 ▸ (List.not_mem_nil _))

/-- A parsed spreadsheet with one date-like string cell. -/
def c6sheet : Sheet :=
  { columns := [("Published ")], rows := [[Cell.sv ("2024-01-05 00:00:00")]] }

/-- C6 (counterexample): the importer persists the date-like cell value
byte for byte; the stored value is the full nineteen-character timestamp
string, not a ten-character prefix.  upload_excel performs no date
normalization at all. -/
theorem c6_counterexample :
    (uploadExcel ("data.xlsx") (.ok c6sheet) []).1
        = [[(("published"), Cell.sv ("2024-01-05 00:00:00"))]]
      ∧ ("2024-01-05 00:00:00" : String).length ≠ 10 :=
  ⟨rfl, by decide⟩

/-- C6 (amended): a successful import stores exactly the parsed rows
zipped with the trimmed lowercased headers, where the only value change
is that missing cells become the empty string: every present cell value,
date-like or not, is persisted unchanged. -/
theorem c6_amended_import (filename : String) (sheet : Sheet) (store : List MongoDoc)
    (resp : UploadResp) (h : (uploadExcel filename (.ok sheet) store).2 = .ok resp) :
    (uploadExcel filename (.ok sheet) store).1 = toRecords sheet
      ∧ ∀ c : Cell, c ≠ Cell.na → fillCell c = c := by
  constructor
  · unfold uploadExcel at h ⊢
    by_cases hn : allowedExcelName filename = false
    · rw [if_pos hn] at h
      exact absurd h (by simp)
    · rw [if_neg hn] at h ⊢
  · intro c hc
    cases c with
    | sv s => rfl
    | iv n => rfl
    | tv s => rfl
    | na => exact absurd rfl hc

/-- A parsed spreadsheet with one missing cell. -/
def c6wsheet : Sheet :=
  { columns := [("Title"), ("Published")], rows := [[Cell.sv ("T1"), Cell.na]] }

/-- Witness for the amended C6 on a sheet with a missing cell. -/
theorem c6_amended_import_witness :
    (uploadExcel ("a.xlsx") (.ok c6wsheet) []).1 = toRecords c6wsheet
      ∧ ∀ c : Cell, c ≠ Cell.na → fillCell c = c :=
  c6_amended_import ("a.xlsx") c6wsheet [] { status := ("ok"), count := 1 } rfl

/-- C9: combined_videos never raises: every response either is the 200
body, or is the defensive 500 body with an error message, no videos and
total zero; in particular a search_videos failure (such as the upstream
502) and a store read failure each produce exactly that 500 body carrying
the exception's message. -/
theorem c9_defensive (query startDate endDate : String) (maxResults : Nat) (source : String)
    (pages : List SearchPage) (resps : List StatsResponse)
    (manualRead : Except String (List ManualRecord)) :
    ((combinedVideos query startDate endDate maxResults source pages resps manualRead).status
          = 200
        ∧ (combinedVideos query startDate endDate maxResults source pages resps
            manualRead).error = none
      ∨ ((combinedVideos query startDate endDate maxResults source pages resps
            manualRead).status = 500
        ∧ (combinedVideos query startDate endDate maxResults source pages resps
            manualRead).videos = []
        ∧ (combinedVideos query startDate endDate maxResults source pages resps
            manualRead).total = 0
        ∧ (combinedVideos query startDate endDate maxResults source pages resps
            manualRead).error ≠ none))
      ∧ (∀ e, (source = "all" ∨ source = "youtube") →
          searchVideos query startDate endDate maxResults pages resps = .error e →
          combinedVideos query startDate endDate maxResults source pages resps manualRead
            = mk500 e.message)
      ∧ (∀ ys msg, ytPortion query startDate endDate maxResults source pages resps = .ok ys →
          manualRead = .error msg →
          combinedVideos query startDate endDate maxResults source pages resps manualRead
            = mk500 msg) := by
  refine ⟨?_, ?_, ?_⟩
  · cases hyp : ytPortion query startDate endDate maxResults source pages resps with
    | error e => right; simp [combinedVideos, hyp, mk500]
    | ok ys =>
      cases manualRead with
      | error msg => right; simp [combinedVideos, hyp, mk500]
      | ok store => left; simp [combinedVideos, hyp]
  · intro e hs hse
    have hyp : ytPortion query startDate endDate maxResults source pages resps = .error e := by
      unfold ytPortion
      rw [if_pos hs, hse]
      rfl
    simp [combinedVideos, hyp]
  · intro ys msg hyt hmr
    simp [combinedVideos, hyt, hmr]

/-- A search response carrying the error key yt() produces on failure. -/
def c9errPage : SearchPage := { error := some ("boom") }

/-- Witness for C9: an upstream search failure, raised by search_videos
as the 502, is caught and becomes the 500 body with that message. -/
theorem c9_defensive_witness :
    combinedVideos ("x") ("2024-01-01") ("2024-01-31") 5 ("all") [c9errPage] [] (.ok [])
      = mk500 ((HErr.httpError 502 (("YouTube search error: ") ++ ("boom"))).message) :=
  (c9_defensive ("x") ("2024-01-01") ("2024-01-31") 5 ("all") [c9errPage] [] (.ok [])).2.1
    (.httpError 502 (("YouTube search error: ") ++ ("boom"))) (Or.inl rfl) rfl

/-- On source all with a successful search, the combined body is the
sorted concatenation of the YouTube list and the filtered manual list. -/
theorem combinedVideos_all_ok (query startDate endDate : String) (maxResults : Nat)
    (pages : List SearchPage) (resps : List StatsResponse) (store : List ManualRecord)
    (ys : List OutRec)
    (hyt : ytPortion query startDate endDate maxResults ("all") pages resps = .ok ys) :
    combinedVideos query startDate endDate maxResults ("all") pages resps (.ok store)
      = { status := 200, error := none,
          videos := pySortDesc
            (ys ++ filteredManual (pyStrip (pyLower query)) startDate endDate store),
          total := (pySortDesc
            (ys ++ filteredManual (pyStrip (pyLower query)) startDate endDate
              store)).length } := by
  simp [combinedVideos, hyt]

/-- Store of one manual record matching the query x. -/
def c10store : List ManualRecord :=
  [{ published := some ("2024-01-05"), keywords := some ("x") }]

/-- The response entry built from that record. -/
def c10rec : OutRec :=
  { title := ("Untitled")
    channel := ("Unknown")
    url := ("#")
    published := ("2024-01-05")
    platform := ("Manual")
    keywords := some ("x") }

/-- C10: max_results bounds only the API-sourced portion: on source all
with a successful search the total is the YouTube count plus the count of
every filtered manual record, each of which appears in the output
whatever max_results is; and concretely, with max_results zero the store
above yields a combined total exceeding max_results. -/
theorem c10_manual_unbounded :
    (∀ (query startDate endDate : String) (maxResults : Nat) (pages : List SearchPage)
        (resps : List StatsResponse) (store : List ManualRecord) (ys : List OutRec),
        ytPortion query startDate endDate maxResults ("all") pages resps = .ok ys →
        ((combinedVideos query startDate endDate maxResults ("all") pages resps
              (.ok store)).total
            = ys.length
              + (filteredManual (pyStrip (pyLower query)) startDate endDate store).length)
          ∧ ∀ v ∈ filteredManual (pyStrip (pyLower query)) startDate endDate store,
              v ∈ (combinedVideos query startDate endDate maxResults ("all") pages resps
                  (.ok store)).videos)
      ∧ 0 < (combinedVideos ("x") ("2024-01-01") ("2024-01-31") 0 ("all") [] []
          (.ok c10store)).total := by
  constructor
  · intro query startDate endDate maxResults pages resps store ys hyt
    rw [combinedVideos_all_ok query startDate endDate maxResults pages resps store ys hyt]
    have hperm := List.perm_insertionSort byPublishedDesc
      (ys ++ filteredManual (pyStrip (pyLower query)) startDate endDate store)
    constructor
    · simp [pySortDesc, List.length_append]
    · intro v hvm
      exact hperm.mem_iff.mpr (List.mem_append_right ys hvm)
  · decide

/-- Witness for C10: the concrete store from above at max_results zero;
the filtered manual record is in the output and counted. -/
theorem c10_manual_unbounded_witness :
    ((combinedVideos ("x") ("2024-01-01") ("2024-01-31") 0 ("all") [] [] (.ok c10store)).total
        = ([] : List OutRec).length
          + (filteredManual (pyStrip (pyLower ("x"))) ("2024-01-01") ("2024-01-31")
              c10store).length)
      ∧ c10rec ∈ (combinedVideos ("x") ("2024-01-01") ("2024-01-31") 0 ("all") [] []
          (.ok c10store)).videos := by
  obtain ⟨h1, h2⟩ := c10_manual_unbounded.1 ("x") ("2024-01-01") ("2024-01-31") 0 [] []
    c10store [] rfl
  exact ⟨h1, h2 c10rec (by decide)⟩

end Dashboard

